import Mathlib

/-
Verification of the terminal and workflow simulation engine of the Soluf-IDE
repository (the React component in src/unnamed/part_000, with the data model of
src/types.ts).

Modelling notes, traced from the source:

* The component holds a single state record (useState of ProjectState) plus the
  separate commandInput and suggestion string states.  We collect all fields the
  engine touches in one structure, AppState.

* addLog (part_000 lines 71-77) reads the target terminal id as
  `termId || state.activeTerminalId` where `state` is the const captured by the
  render closure in which the running handler was created.  Every async handler
  (handleCommand, runWorkflow) therefore resolves the active-terminal id ONCE, at
  dispatch or trigger time, and keeps using that id after each await, even though
  the functional setState updates apply to the then-current terminal list.  The
  embedding makes that snapshot explicit: the synchronous part of each handler
  computes `tid` once and the scheduled continuations carry it in AsyncTask.

* The awaits inside runWorkflow and the npm-test branch are modelled as a list
  of pending AsyncTask values in SysState; an Event.fire step runs the next
  burst of one task, and arbitrary user events may interleave between fires,
  exactly as the single-threaded event loop interleaves timer callbacks.

* createNewTerminal derives the new id from Date.now(); the clock is an input
  of the model (Event.create carries the millisecond value).  Two creations in
  the same millisecond yield the same id, as in the source.

* closeTerminal evaluates newTerms[0].id when the closed id was active.  If the
  filter removed every terminal (possible only with duplicated ids) the source
  throws a TypeError inside the setState updater, so no new state commits; the
  model returns none and the event machine marks the system crashed, keeping the
  last committed state.

* The file tree is static; findFile is a depth-first search by id, so the tree
  is embedded as its depth-first flattening, which findFile-by-unique-id cannot
  distinguish from the nested form.  The AI adapter (services/gemini.ts) is an
  external collaborator: the text of its asynchronous response line is an input
  of the model (the aiLine parameter), while the synchronous parts of the audit
  flow are embedded faithfully.

* String primitives (trim, toLowerCase, split on single space, startsWith) are embedded as
  structural functions on the character list of the string, with the JavaScript
  semantics on the ASCII inputs the engine uses.
-/

inductive WorkflowStatus where
  | idle
  | running
  | success
  | failed
deriving DecidableEq, Repr

structure TerminalInstance where
  id : String
  name : String
  logs : List String
deriving DecidableEq, Repr

structure WorkflowRun where
  id : String
  workflowName : String
  status : WorkflowStatus
  logs : List String
deriving DecidableEq, Repr

/-- Node of the file catalog: the depth-first flattening of INITIAL_FILES.
TS `type` is embedded as isFile; folders carry no language or content. -/
structure FileMeta where
  id : String
  name : String
  isFile : Bool
  language : Option String
  content : Option String
deriving DecidableEq, Repr

/-- All mutable state the terminal and workflow engine touches: the relevant
fields of ProjectState plus the commandInput and suggestion useState cells. -/
structure AppState where
  files : List FileMeta
  currentFileId : Option String
  isTerminalOpen : Bool
  workflows : List WorkflowRun
  terminals : List TerminalInstance
  activeTerminalId : String
  terminalTheme : String
  commandInput : String
  suggestion : String
deriving DecidableEq, Repr

def INITIAL_WORKFLOWS : List WorkflowRun :=
  [ { id := "wf1", workflowName := "CI Pipeline", status := .success,
      logs := ["Build started", "npm install successful", "Tests passed", "Build finished"] },
    { id := "wf2", workflowName := "CD Deployment", status := .idle, logs := [] } ]

def INITIAL_TERMINALS : List TerminalInstance :=
  [ { id := "term-1", name := "bash",
      logs := ["Welcome to Soluf-th Bash v5.1", "Type \"help\" for available commands."] },
    { id := "term-2", name := "node",
      logs := ["Welcome to Node.js v18.16.0.", "Type \".help\" for more information."] } ]

/-- Depth-first flattening of the INITIAL_FILES tree of part_000 lines 6-20. -/
def fileCatalog : List FileMeta :=
  [ { id := "1", name := "contracts", isFile := false, language := none, content := none },
    { id := "2", name := "Storage.sol", isFile := true, language := some "solidity",
      content := some "// SPDX-License-Identifier: MIT\npragma solidity ^0.8.0;\n\ncontract Storage \x7b\n    uint256 public val;\n    function store(uint256 x) public \x7b\n        val = x;\n    \x7d\n\x7d" },
    { id := "3", name := "Token.sol", isFile := true, language := some "solidity",
      content := some "contract Token \x7b mapping(address=>uint) balances; \x7d" },
    { id := "4", name := ".github", isFile := false, language := none, content := none },
    { id := "5", name := "workflows", isFile := false, language := none, content := none },
    { id := "6", name := "main.yml", isFile := true, language := some "yaml",
      content := some "name: CI\non: [push]\njobs:\n  build:\n    runs-on: ubuntu-latest\n    steps:\n      - uses: actions/checkout@v2\n      - name: Run Tests\n        run: npm test" },
    { id := "8", name := "deploy.yml", isFile := true, language := some "yaml",
      content := some "name: CD\non: [manual]\njobs:\n  deploy:\n    runs-on: ubuntu-latest\n    steps:\n      - uses: actions/checkout@v2\n      - name: Deploy to Mainnet\n        run: hardhat deploy" },
    { id := "7", name := "README.md", isFile := true, language := some "markdown",
      content := some "# Soluf-th Project\nDeveloper hub simulation." } ]

/-- The fixed command vocabulary (part_000 line 37), in declared order. -/
def COMMANDS : List String :=
  ["help", "clear", "ls", "npm test", "npm deploy", "audit", "whoami",
   "theme monokai", "theme cyberpunk", "theme github-dark"]

/-- The accepted theme names in the theme command branch (line 120). -/
def validThemes : List String := ["monokai", "cyberpunk", "github-dark"]

/-- The option values of the theme dropdown (lines 489-491). -/
def themeOptions : List String := ["github-dark", "monokai", "cyberpunk"]

/-- ASCII whitespace, as trimmed by the JavaScript trim on the inputs used. -/
def isWsChar (c : Char) : Bool :=
  c == ' ' || c == '\t' || c == '\n' || c == '\r'

def trimChars (cs : List Char) : List Char :=
  ((cs.dropWhile isWsChar).reverse.dropWhile isWsChar).reverse

/-- JavaScript String.trim, on the character list of the string. -/
def trimS (s : String) : String := String.mk (trimChars s.data)

/-- JavaScript String.toLowerCase, ASCII range. -/
def lowerS (s : String) : String := String.mk (s.data.map Char.toLower)

def isPre : List Char → List Char → Bool
  | [], _ => true
  | _ :: _, [] => false
  | a :: as, b :: bs => a == b && isPre as bs

/-- startsWithS s p: the string s starts with the string p. -/
def startsWithS (s p : String) : Bool := isPre p.data s.data

/-- JavaScript split with the single-space separator: splits at every space character, keeping empty groups. -/
def splitSp : List Char → List (List Char)
  | [] => [[]]
  | c :: rest =>
    let r := splitSp rest
    if c == ' ' then [] :: r
    else
      match r with
      | [] => [c] :: []
      | g :: gs => (c :: g) :: gs

/-- Token i of the single-space split of s, with "" for a missing index, as JavaScript indexing yields. -/
def tokenAt (s : String) (i : Nat) : String :=
  ((splitSp s.data).map String.mk).getD i ""

/-- cmd.trim().toLowerCase() of handleCommand line 96. -/
def cleanOf (cmd : String) : String := lowerS (trimS cmd)

/-- Append lines to the log of every terminal whose id matches tid
(the map of addLog, lines 73-76). -/
def updTerms (ts : List TerminalInstance) (tid : String) (lines : List String) :
    List TerminalInstance :=
  ts.map (fun t => if t.id == tid then { t with logs := t.logs ++ lines } else t)

def addLogsTo (s : AppState) (tid : String) (lines : List String) : AppState :=
  { s with terminals := updTerms s.terminals tid lines }

/-- addLog (lines 71-77); tid is the target id the closure resolved. -/
def addLog (s : AppState) (tid : String) (msg : String) : AppState :=
  addLogsTo s tid [msg]

/-- The log list of the terminal with the given id ([] if absent). -/
def logsOf (s : AppState) (tid : String) : List String :=
  ((s.terminals.find? (fun t => t.id == tid)).map (fun t => t.logs)).getD []

/-- The clear branch of handleCommand (lines 99-103): empties the log of the
currently active terminal. -/
def clearActive (s : AppState) : AppState :=
  { s with terminals :=
      s.terminals.map (fun t =>
        if t.id == s.activeTerminalId then { t with logs := [] } else t) }

/-- The suggestion computed by onCommandChange (lines 147-155): none when the
input is empty after trimming, otherwise the first vocabulary entry starting
with the lower-cased input. -/
def findSuggestion (val : String) : Option String :=
  if trimS val == "" then none
  else COMMANDS.find? (fun c => startsWithS c (lowerS val))

/-- onCommandChange (lines 147-155). -/
def onCommandChange (s : AppState) (val : String) : AppState :=
  { s with commandInput := val, suggestion := (findSuggestion val).getD "" }

/-- The four templated step lines of runWorkflow (lines 200-205). -/
def wfStepLines (name : String) : List String :=
  [ "[" ++ name ++ "] Starting runner...",
    "[" ++ name ++ "] Checking out code...",
    "[" ++ name ++ "] Deployment success!",
    "[" ++ name ++ "] Job finished." ]

/-- One wake-up of a suspended handler: the state mutations that run
synchronously between two awaits. -/
inductive Burst where
  | logs (lines : List String)
  | logsThenReset (lines : List String)
  | finish (wfId : String)
deriving DecidableEq, Repr

/-- A suspended handler: the terminal id its closure captured and the bursts
its remaining timer callbacks will run. -/
structure AsyncTask where
  targetId : String
  bursts : List Burst
deriving DecidableEq, Repr

/-- The synchronous prefix of runWorkflow (lines 190-209, up to the first
await): guard, status to running with cleared run log, terminal panel forced
open, first step line appended; the remaining steps and the final status
change are returned as the pending task.  The target id is the active terminal
id the closure captured at trigger time. -/
def runWorkflowSync (s : AppState) (workflowId : String) :
    AppState × List AsyncTask :=
  match s.workflows.find? (fun w => w.id == workflowId) with
  | none => (s, [])
  | some wf =>
    if wf.status == .running then (s, [])
    else
      let tid := s.activeTerminalId
      let steps := wfStepLines wf.workflowName
      let s1 := { s with
        isTerminalOpen := true,
        workflows := s.workflows.map (fun w =>
          if w.id == workflowId then { w with status := .running, logs := [] } else w) }
      let s2 := addLog s1 tid (steps.headD "")
      (s2, [ { targetId := tid,
               bursts := (steps.drop 1).map (fun l => Burst.logs [l])
                           ++ [Burst.finish workflowId] } ])

/-- activeFile (lines 81-93): depth-first lookup of currentFileId. -/
def activeFile (s : AppState) : Option FileMeta :=
  match s.currentFileId with
  | none => none
  | some fid => s.files.find? (fun f => f.id == fid)

/-- The synchronous prefix of handleAnalyze (lines 157-171): abort when no file
with (truthy) content is selected, otherwise append the analyzing line; the
adapter response line (aiLine, an input of the model) arrives as a later
burst. -/
def handleAnalyzeSync (s : AppState) (tid : String) (aiLine : String) :
    AppState × List AsyncTask :=
  match activeFile s with
  | none => (s, [])
  | some f =>
    match f.content with
    | none => (s, [])
    | some c =>
      if c == "" then (s, [])
      else
        (addLog s tid ("AI: Analyzing " ++ f.name ++ "..."),
         [ { targetId := tid, bursts := [Burst.logs [aiLine]] } ])

/-- handleCommand (lines 95-133) with the already computed cleanCmd passed in;
tid is the active terminal id captured by the render closure.  The npm-test
branch suspends before the input reset (the await on line 114 precedes the
resets on lines 131-132), so its reset travels with the pending burst; every
other branch resets the input and suggestion synchronously. -/
def handleCommandAux (s : AppState) (cmd cleanCmd aiLine : String) :
    AppState × List AsyncTask :=
  let tid := s.activeTerminalId
  let s1 := addLog s tid ("soluf-th@dev:~$ " ++ cmd)
  let finishNow := fun (p : AppState × List AsyncTask) =>
    ({ p.1 with commandInput := "", suggestion := "" }, p.2)
  if cleanCmd == "clear" then finishNow (clearActive s1, [])
  else if cleanCmd == "ls" then
    finishNow (addLog s1 tid "contracts/  .github/  README.md  package.json", [])
  else if cleanCmd == "help" then
    finishNow (addLog s1 tid "Available commands: help, clear, ls, npm test, npm deploy, audit, whoami, theme [monokai|cyberpunk|github-dark]", [])
  else if cleanCmd == "whoami" then
    finishNow (addLog s1 tid "soluf-th-developer-agent-01", [])
  else if cleanCmd == "audit" then finishNow (handleAnalyzeSync s1 tid aiLine)
  else if cleanCmd == "npm test" then
    (addLog s1 tid "Running tests...",
     [ { targetId := tid,
         bursts := [Burst.logsThenReset
           ["✓ Storage.sol compiled", "✓ Storage.sol tests passed",
            "Tests completed successfully."]] } ])
  else if startsWithS cleanCmd "theme " then
    let themeName := tokenAt cleanCmd 1
    if validThemes.contains themeName then
      finishNow
        (addLog { s1 with terminalTheme := themeName } tid
          ("Terminal theme switched to " ++ themeName), [])
    else finishNow (addLog s1 tid ("Unknown theme: " ++ themeName), [])
  else if cleanCmd == "npm deploy" then finishNow (runWorkflowSync s1 "wf2")
  else if cleanCmd != "" then
    finishNow (addLog s1 tid ("Command not found: " ++ cleanCmd), [])
  else finishNow (s1, [])

/-- handleCommand (lines 95-133). -/
def handleCommand (s : AppState) (cmd aiLine : String) :
    AppState × List AsyncTask :=
  handleCommandAux s cmd (cleanOf cmd) aiLine

/-- createNewTerminal (lines 245-249); now is the Date.now() millisecond
value, an input of the model. -/
def createNewTerminal (s : AppState) (now : Nat) : AppState :=
  let newId := "term-" ++ toString now
  { s with
    terminals := s.terminals ++ [{ id := newId, name := "bash", logs := ["Terminal created."] }],
    activeTerminalId := newId }

/-- closeTerminal (lines 251-260).  none models the TypeError the source
throws on newTerms[0].id when the filter removed every terminal (possible only
with duplicated ids); the thrown updater commits no state. -/
def closeTerminal (s : AppState) (id : String) : Option AppState :=
  if s.terminals.length ≤ 1 then some s
  else
    let newTerms := s.terminals.filter (fun t => t.id != id)
    if s.activeTerminalId == id then
      match newTerms.head? with
      | none => none
      | some t0 => some { s with terminals := newTerms, activeTerminalId := t0.id }
    else
      some { s with terminals := newTerms }

/-- Run one burst of a suspended handler against the current state. -/
def applyBurst (s : AppState) (tid : String) (b : Burst) : AppState :=
  match b with
  | .logs lines => addLogsTo s tid lines
  | .logsThenReset lines =>
    { addLogsTo s tid lines with commandInput := "", suggestion := "" }
  | .finish wfId =>
    { s with workflows := s.workflows.map (fun w =>
        if w.id == wfId then { w with status := .success } else w) }

/-- The whole system: committed state, pending suspended handlers, and whether
a state updater has thrown (after which the component is dead). -/
structure SysState where
  app : AppState
  tasks : List AsyncTask
  crashed : Bool
deriving DecidableEq, Repr

/-- The discrete external events of the single-threaded event loop.  UI events
carry the data the rendered control supplies (tab indexes, the clock value,
the dropdown row); fire j wakes the j-th pending handler for its next burst. -/
inductive Event where
  | create (now : Nat)
  | closeTab (i : Nat)
  | switchTab (i : Nat)
  | pickTheme (i : Nat)
  | hideTerminal
  | selectFile (fid : String)
  | input (val : String)
  | enter (aiLine : String)
  | tabKey
  | runWf (wfId : String)
  | fire (j : Nat)
deriving DecidableEq, Repr

/-- Wake the j-th pending handler and run its next burst. -/
def fireTask (sys : SysState) (j : Nat) : SysState :=
  match sys.tasks[j]? with
  | none => sys
  | some T =>
    match T.bursts with
    | [] => { sys with tasks := sys.tasks.eraseIdx j }
    | b :: rest =>
      let app2 := applyBurst sys.app T.targetId b
      if rest.isEmpty then { sys with app := app2, tasks := sys.tasks.eraseIdx j }
      else { sys with app := app2, tasks := sys.tasks.set j { T with bursts := rest } }

def applyEvent (sys : SysState) (e : Event) : SysState :=
  if sys.crashed then sys
  else
    match e with
    | .create now => { sys with app := createNewTerminal sys.app now }
    | .closeTab i =>
      match sys.app.terminals[i]? with
      | none => sys
      | some t =>
        match closeTerminal sys.app t.id with
        | none => { sys with crashed := true }
        | some s2 => { sys with app := s2 }
    | .switchTab i =>
      match sys.app.terminals[i]? with
      | none => sys
      | some t => { sys with app := { sys.app with activeTerminalId := t.id } }
    | .pickTheme i =>
      match themeOptions[i]? with
      | none => sys
      | some th => { sys with app := { sys.app with terminalTheme := th } }
    | .hideTerminal => { sys with app := { sys.app with isTerminalOpen := false } }
    | .selectFile fid =>
      match sys.app.files.find? (fun f => f.id == fid) with
      | none => sys
      | some f =>
        if f.isFile then { sys with app := { sys.app with currentFileId := some fid } }
        else sys
    | .input val => { sys with app := onCommandChange sys.app val }
    | .enter aiLine =>
      let p := handleCommand sys.app sys.app.commandInput aiLine
      { sys with app := p.1, tasks := sys.tasks ++ p.2 }
    | .tabKey =>
      if sys.app.suggestion != "" then
        { sys with app :=
            { sys.app with commandInput := sys.app.suggestion, suggestion := "" } }
      else sys
    | .runWf wfId =>
      let p := runWorkflowSync sys.app wfId
      { sys with app := p.1, tasks := sys.tasks ++ p.2 }
    | .fire j => fireTask sys j

def applyEvents (sys : SysState) (es : List Event) : SysState :=
  es.foldl applyEvent sys

/-- The seeded startup state (lines 40-52, 58-59). -/
def initApp : AppState :=
  { files := fileCatalog, currentFileId := some "2", isTerminalOpen := true,
    workflows := INITIAL_WORKFLOWS, terminals := INITIAL_TERMINALS,
    activeTerminalId := "term-1", terminalTheme := "github-dark",
    commandInput := "", suggestion := "" }

def initSys : SysState := { app := initApp, tasks := [], crashed := false }

inductive Reachable : SysState → Prop where
  | init : Reachable initSys
  | step (sys : SysState) (e : Event) : Reachable sys → Reachable (applyEvent sys e)

def termLogsIn (sys : SysState) (tid : String) : List String :=
  logsOf sys.app tid

def wfStatusIn (sys : SysState) (wfId : String) : Option WorkflowStatus :=
  (sys.app.workflows.find? (fun w => w.id == wfId)).map (fun w => w.status)

/-- Run one pending handler to completion (all its remaining bursts). -/
def runTaskBursts (s : AppState) (T : AsyncTask) : AppState :=
  T.bursts.foldl (fun a b => applyBurst a T.targetId b) s

/-- Dispatch a command line and let every handler it scheduled complete, with
no interleaved user events. -/
def dispatchAndComplete (s : AppState) (cmd aiLine : String) : AppState :=
  let p := handleCommand s cmd aiLine
  p.2.foldl runTaskBursts p.1

/-- The active terminal id names an existing session. -/
def goodApp (s : AppState) : Prop :=
  s.activeTerminalId ∈ s.terminals.map (fun t => t.id)

/-- No workflow ever carries the failed status. -/
def noFailed (s : AppState) : Prop :=
  ∀ w ∈ s.workflows, w.status ≠ WorkflowStatus.failed

def SysInv (sys : SysState) : Prop := goodApp sys.app ∧ noFailed sys.app

def switchEvents (g : List Nat) : List Event := g.map Event.switchTab

/-- Stage 1 of a workflow run: the trigger event, which runs the synchronous
prefix of runWorkflow including the first step line. -/
def riStage1 (app : AppState) (wfId : String) : SysState :=
  applyEvent { app := app, tasks := [], crashed := false } (Event.runWf wfId)

/-- Stage 2: arbitrary tab switches during the first delay, then the timer
callback appending the second step line. -/
def riStage2 (app : AppState) (wfId : String) (g1 : List Nat) : SysState :=
  applyEvent (applyEvents (riStage1 app wfId) (switchEvents g1)) (Event.fire 0)

def riStage3 (app : AppState) (wfId : String) (g1 g2 : List Nat) : SysState :=
  applyEvent (applyEvents (riStage2 app wfId g1) (switchEvents g2)) (Event.fire 0)

def riStage4 (app : AppState) (wfId : String) (g1 g2 g3 : List Nat) : SysState :=
  applyEvent (applyEvents (riStage3 app wfId g1 g2) (switchEvents g3)) (Event.fire 0)

/-- A full workflow run with arbitrary tab switches interleaved in the four
suspension gaps: the trigger, then before each of the four timer callbacks
(three remaining step lines and the final status change) any sequence of tab
clicks. -/
def runInterleaved (app : AppState) (wfId : String) (g1 g2 g3 g4 : List Nat) : SysState :=
  applyEvent (applyEvents (riStage4 app wfId g1 g2 g3) (switchEvents g4)) (Event.fire 0)

/-- Trigger wf2, then switch the active terminal to tab 1 (term-2) before the
three remaining step lines and the completion fire. -/
def c1Trace : SysState :=
  applyEvents initSys
    [Event.runWf "wf2", Event.switchTab 1, Event.fire 0, Event.fire 0, Event.fire 0, Event.fire 0]

/-- Close term-2, create two terminals in the same millisecond (duplicated
Date.now id), then close term-1: the final close completes normally. -/
def c3Trace : SysState :=
  applyEvents initSys [Event.closeTab 1, Event.create 5, Event.create 5, Event.closeTab 0]

def c8Trigger : SysState := applyEvent initSys (Event.runWf "wf2")

def c8Final : SysState :=
  applyEvents c8Trigger [Event.fire 0, Event.fire 0, Event.fire 0, Event.fire 0]

/-- All five lines a completed npm-test dispatch appends, in order. -/
def npmTestLines : List String :=
  ["soluf-th@dev:~$ npm test", "Running tests...", "✓ Storage.sol compiled",
   "✓ Storage.sol tests passed", "Tests completed successfully."]

/-- A state holding a single terminal session. -/
def soloApp : AppState :=
  { initApp with terminals := [{ id := "term-1", name := "bash", logs := [] }] }

/-- Facts preserved by every log-level operation: the terminal id list, the
active id, and the absence of failed workflow statuses. -/
def presCore (s s2 : AppState) : Prop :=
  s2.terminals.map (fun t => t.id) = s.terminals.map (fun t => t.id) ∧
  s2.activeTerminalId = s.activeTerminalId ∧
  (noFailed s → noFailed s2)

/-- The app state after a completed npm test dispatch on the seeded state. -/
def c6Final : AppState := dispatchAndComplete initApp "npm test" ""

theorem updTerms_ids (ts : List TerminalInstance) (tid : String) (L : List String) :
    (updTerms ts tid L).map (fun t => t.id) = ts.map (fun t => t.id) := by
  simp only [updTerms, List.map_map]
  apply List.map_congr_left
  intro a _
  by_cases ha : a.id = tid <;> simp [ha]

theorem updTerms_updTerms (ts : List TerminalInstance) (tid : String) (L1 L2 : List String) :
    updTerms (updTerms ts tid L1) tid L2 = updTerms ts tid (L1 ++ L2) := by
  simp only [updTerms, List.map_map]
  apply List.map_congr_left
  intro a _
  by_cases ha : a.id = tid <;> simp [ha]

theorem clearActive_terminals (s : AppState) :
    (clearActive s).terminals.map (fun t => t.id) = s.terminals.map (fun t => t.id) := by
  show (s.terminals.map _).map _ = _
  rw [List.map_map]
  apply List.map_congr_left
  intro a _
  by_cases ha : a.id = s.activeTerminalId <;> simp [ha]

theorem wf_map_fusion (ws : List WorkflowRun) (wfId : String) :
    (ws.map (fun w => if w.id == wfId then { w with status := WorkflowStatus.running, logs := [] } else w)).map
      (fun w => if w.id == wfId then { w with status := WorkflowStatus.success } else w)
    = ws.map (fun w => if w.id == wfId then { w with status := WorkflowStatus.success, logs := [] } else w) := by
  rw [List.map_map]
  apply List.map_congr_left
  intro a _
  by_cases ha : a.id = wfId <;> simp [ha]

theorem countP_id_eq_one (ts : List TerminalInstance) (a : String)
    (hn : (ts.map (fun t => t.id)).Nodup) (hm : a ∈ ts.map (fun t => t.id)) :
    ts.countP (fun t => t.id == a) = 1 := by
  have h1 : ts.countP (fun t => t.id == a) = List.count a (ts.map (fun t => t.id)) := by
    rw [List.count, List.countP_map]; rfl
  rw [h1]
  exact List.count_eq_one_of_mem hn hm

theorem find?_first {α : Type} (p : α → Bool) :
    ∀ (l : List α) (a : α), l.find? p = some a →
      ∃ i, ∃ h : i < l.length, l.get ⟨i, h⟩ = a ∧ p a = true ∧
        ∀ j, ∀ hj : j < l.length, j < i → p (l.get ⟨j, hj⟩) = false := by
  intro l
  induction l with
  | nil => intro a h; simp [List.find?] at h
  | cons x xs ih =>
    intro a h
    cases hp : p x with
    | true =>
      rw [List.find?_cons_of_pos _ hp] at h
      injection h with h
      subst h
      exact ⟨0, Nat.succ_pos _, rfl, hp, fun j hj hj0 => absurd hj0 (Nat.not_lt_zero j)⟩
    | false =>
      rw [List.find?_cons_of_neg _ (by simp [hp])] at h
      obtain ⟨i, hi, hget, hpa, hprev⟩ := ih a h
      refine ⟨i + 1, Nat.succ_lt_succ hi, ?_, hpa, ?_⟩
      · rw [List.get_cons_succ]; exact hget
      · intro j hj hji
        cases j with
        | zero => exact hp
        | succ j2 =>
          rw [List.get_cons_succ]
          exact hprev j2 (Nat.lt_of_succ_lt_succ hj) (Nat.lt_of_succ_lt_succ hji)

theorem presCore_refl (s : AppState) : presCore s s := ⟨rfl, rfl, fun h => h⟩

theorem presCore_trans {s1 s2 s3 : AppState} (h1 : presCore s1 s2) (h2 : presCore s2 s3) :
    presCore s1 s3 :=
  ⟨h2.1.trans h1.1, h2.2.1.trans h1.2.1, fun h => h2.2.2 (h1.2.2 h)⟩

theorem goodApp_of_presCore {s s2 : AppState} (h : presCore s s2) (hg : goodApp s) :
    goodApp s2 := by
  unfold goodApp at hg ⊢
  rw [h.1, h.2.1]
  exact hg

theorem presCore_addLogsTo (s : AppState) (tid : String) (L : List String) :
    presCore s (addLogsTo s tid L) :=
  ⟨updTerms_ids s.terminals tid L, rfl, fun h => h⟩

theorem presCore_clearActive (s : AppState) :
    presCore s (clearActive s) :=
  ⟨clearActive_terminals s, rfl, fun h => h⟩

theorem noFailed_map_guard (ws : List WorkflowRun) (f : WorkflowRun → WorkflowRun)
    (hf : ∀ w, f w = w ∨ (f w).status ≠ WorkflowStatus.failed)
    (h : ∀ w ∈ ws, w.status ≠ WorkflowStatus.failed) :
    ∀ w ∈ ws.map f, w.status ≠ WorkflowStatus.failed := by
  intro w hw
  obtain ⟨w0, hw0, rfl⟩ := List.mem_map.mp hw
  cases hf w0 with
  | inl he => rw [he]; exact h w0 hw0
  | inr hne => exact hne

theorem presCore_setTheme (s : AppState) (x : String) :
    presCore s { s with terminalTheme := x } := ⟨rfl, rfl, fun h => h⟩

theorem presCore_reset (s : AppState) :
    presCore s { s with commandInput := "", suggestion := "" } := ⟨rfl, rfl, fun h => h⟩

theorem presCore_runWorkflowSync (s : AppState) (wfId : String) :
    presCore s (runWorkflowSync s wfId).1 := by
  unfold runWorkflowSync
  cases hf : s.workflows.find? (fun w => w.id == wfId) with
  | none => exact presCore_refl s
  | some wf =>
    dsimp only
    by_cases hr : (wf.status == WorkflowStatus.running) = true
    · simp only [hr, if_true]
      exact presCore_refl s
    · simp only [hr, if_false]
      refine ⟨updTerms_ids _ _ _, rfl, fun h => ?_⟩
      intro w hw
      refine noFailed_map_guard s.workflows _ ?_ h w hw
      intro w0
      by_cases hw0 : w0.id = wfId
      · right; simp [hw0]
      · left; simp [hw0]

theorem presCore_handleAnalyzeSync (s : AppState) (tid aiLine : String) :
    presCore s (handleAnalyzeSync s tid aiLine).1 := by
  unfold handleAnalyzeSync
  cases activeFile s with
  | none => exact presCore_refl s
  | some f =>
    dsimp only
    cases f.content with
    | none => exact presCore_refl s
    | some c =>
      dsimp only
      by_cases hc : (c == "") = true
      · simp only [hc, if_true]
        exact presCore_refl s
      · simp only [hc, if_false]
        exact presCore_addLogsTo s tid _

theorem presCore_handleCommandAux (s : AppState) (cmd cleanCmd aiLine : String) :
    presCore s (handleCommandAux s cmd cleanCmd aiLine).1 := by
  have h1 : presCore s (addLog s s.activeTerminalId ("soluf-th@dev:~$ " ++ cmd)) :=
    presCore_addLogsTo s _ _
  have hreset : ∀ (s2 : AppState), presCore s s2 →
      presCore s { s2 with commandInput := "", suggestion := "" } := by
    intro s2 hp
    exact presCore_trans hp (presCore_reset s2)
  unfold handleCommandAux
  dsimp only
  split
  · exact hreset _ (presCore_trans h1 (presCore_clearActive _))
  split
  · exact hreset _ (presCore_trans h1 (presCore_addLogsTo _ _ _))
  split
  · exact hreset _ (presCore_trans h1 (presCore_addLogsTo _ _ _))
  split
  · exact hreset _ (presCore_trans h1 (presCore_addLogsTo _ _ _))
  split
  · exact hreset _ (presCore_trans h1 (presCore_handleAnalyzeSync _ _ _))
  split
  · exact presCore_trans h1 (presCore_addLogsTo _ _ _)
  split
  · split
    · exact hreset _ (presCore_trans h1
        (presCore_trans (presCore_setTheme _ _) (presCore_addLogsTo _ _ _)))
    · exact hreset _ (presCore_trans h1 (presCore_addLogsTo _ _ _))
  split
  · exact hreset _ (presCore_trans h1 (presCore_runWorkflowSync _ _))
  split
  · exact hreset _ (presCore_trans h1 (presCore_addLogsTo _ _ _))
  · exact hreset _ h1

theorem closeTerminal_good (s : AppState) (id : String) (s2 : AppState)
    (hg : goodApp s) (hc : closeTerminal s id = some s2) :
    goodApp s2 ∧ s2.workflows = s.workflows := by
  unfold closeTerminal at hc
  by_cases hl : s.terminals.length ≤ 1
  · rw [if_pos hl] at hc
    injection hc with hc
    subst hc
    exact ⟨hg, rfl⟩
  · rw [if_neg hl] at hc
    dsimp only at hc
    by_cases ha : (s.activeTerminalId == id) = true
    · rw [if_pos ha] at hc
      cases hh : (s.terminals.filter (fun t => t.id != id)).head? with
      | none => rw [hh] at hc; exact absurd hc (by simp)
      | some t0 =>
        rw [hh] at hc
        injection hc with hc
        subst hc
        refine ⟨?_, rfl⟩
        unfold goodApp
        exact List.mem_map.mpr ⟨t0, List.mem_of_mem_head? hh, rfl⟩
    · rw [if_neg ha] at hc
      injection hc with hc
      subst hc
      refine ⟨?_, rfl⟩
      unfold goodApp at hg ⊢
      obtain ⟨t, ht, hid⟩ := List.mem_map.mp hg
      refine List.mem_map.mpr ⟨t, List.mem_filter.mpr ⟨ht, ?_⟩, hid⟩
      have : ¬ t.id = id := by
        intro he
        exact ha (by rw [← hid, he]; exact beq_self_eq_true id)
      simp [this]

theorem presCore_applyBurst (s : AppState) (tid : String) (b : Burst) :
    presCore s (applyBurst s tid b) := by
  cases b with
  | logs lines => exact presCore_addLogsTo s tid lines
  | logsThenReset lines =>
    exact presCore_trans (presCore_addLogsTo s tid lines) (presCore_reset _)
  | finish wfId =>
    refine ⟨rfl, rfl, fun h => ?_⟩
    intro w hw
    refine noFailed_map_guard s.workflows _ ?_ h w hw
    intro w0
    by_cases hw0 : w0.id = wfId
    · right; simp [hw0]
    · left; simp [hw0]

theorem inv_step (sys : SysState) (e : Event) (h : SysInv sys) : SysInv (applyEvent sys e) := by
  obtain ⟨hg, hnf⟩ := h
  unfold applyEvent
  by_cases hcr : sys.crashed = true
  · rw [if_pos hcr]
    exact ⟨hg, hnf⟩
  rw [if_neg hcr]
  cases e with
  | create now =>
    dsimp only
    refine ⟨?_, hnf⟩
    unfold goodApp createNewTerminal
    dsimp only
    simp
  | closeTab i =>
    dsimp only
    split
    · exact ⟨hg, hnf⟩
    rename_i t ht
    split
    · exact ⟨hg, hnf⟩
    rename_i s2 hc
    obtain ⟨hg2, hw2⟩ := closeTerminal_good sys.app t.id s2 hg hc
    refine ⟨hg2, ?_⟩
    unfold noFailed
    rw [hw2]
    exact hnf
  | switchTab i =>
    dsimp only
    split
    · exact ⟨hg, hnf⟩
    rename_i t ht
    refine ⟨?_, hnf⟩
    unfold goodApp
    dsimp only
    have hmem : t ∈ sys.app.terminals := by
      rw [List.getElem?_eq_some] at ht
      obtain ⟨hi, rfl⟩ := ht
      exact List.getElem_mem hi
    exact List.mem_map.mpr ⟨t, hmem, rfl⟩
  | pickTheme i =>
    dsimp only
    split
    · exact ⟨hg, hnf⟩
    · exact ⟨hg, hnf⟩
  | hideTerminal =>
    dsimp only
    exact ⟨hg, hnf⟩
  | selectFile fid =>
    dsimp only
    split
    · exact ⟨hg, hnf⟩
    split
    · exact ⟨hg, hnf⟩
    · exact ⟨hg, hnf⟩
  | input val =>
    dsimp only
    exact ⟨hg, hnf⟩
  | enter aiLine =>
    dsimp only
    have hp := presCore_handleCommandAux sys.app sys.app.commandInput
      (cleanOf sys.app.commandInput) aiLine
    exact ⟨goodApp_of_presCore hp hg, hp.2.2 hnf⟩
  | tabKey =>
    dsimp only
    split
    · exact ⟨hg, hnf⟩
    · exact ⟨hg, hnf⟩
  | runWf wfId =>
    dsimp only
    have hp := presCore_runWorkflowSync sys.app wfId
    exact ⟨goodApp_of_presCore hp hg, hp.2.2 hnf⟩
  | fire j =>
    dsimp only
    unfold fireTask
    split
    · exact ⟨hg, hnf⟩
    rename_i T ht
    split
    · exact ⟨hg, hnf⟩
    rename_i b rest hb
    have hp := presCore_applyBurst sys.app T.targetId b
    dsimp only
    split
    · exact ⟨goodApp_of_presCore hp hg, hp.2.2 hnf⟩
    · exact ⟨goodApp_of_presCore hp hg, hp.2.2 hnf⟩

theorem goodApp_init : goodApp initSys.app := by
  unfold goodApp
  decide

theorem noFailed_init : noFailed initSys.app := by
  unfold noFailed
  decide

theorem reachable_inv (sys : SysState) (h : Reachable sys) : SysInv sys := by
  induction h with
  | init => exact ⟨goodApp_init, noFailed_init⟩
  | step sys e hr ih => exact inv_step sys e ih

theorem switchTab_pres (sys : SysState) (i : Nat) :
    (applyEvent sys (Event.switchTab i)).app.terminals = sys.app.terminals ∧
    (applyEvent sys (Event.switchTab i)).app.workflows = sys.app.workflows ∧
    (applyEvent sys (Event.switchTab i)).tasks = sys.tasks ∧
    (applyEvent sys (Event.switchTab i)).crashed = sys.crashed := by
  unfold applyEvent
  by_cases hcr : sys.crashed = true
  · rw [if_pos hcr]
    exact ⟨rfl, rfl, rfl, rfl⟩
  · rw [if_neg hcr]
    dsimp only
    split
    · exact ⟨rfl, rfl, rfl, rfl⟩
    · exact ⟨rfl, rfl, rfl, rfl⟩

theorem switches_pres (g : List Nat) : ∀ (sys : SysState),
    (applyEvents sys (switchEvents g)).app.terminals = sys.app.terminals ∧
    (applyEvents sys (switchEvents g)).app.workflows = sys.app.workflows ∧
    (applyEvents sys (switchEvents g)).tasks = sys.tasks ∧
    (applyEvents sys (switchEvents g)).crashed = sys.crashed := by
  induction g with
  | nil => intro sys; exact ⟨rfl, rfl, rfl, rfl⟩
  | cons i g ih =>
    intro sys
    have h1 := switchTab_pres sys i
    have h2 := ih (applyEvent sys (Event.switchTab i))
    have he : applyEvents sys (switchEvents (i :: g))
        = applyEvents (applyEvent sys (Event.switchTab i)) (switchEvents g) := rfl
    rw [he]
    exact ⟨h2.1.trans h1.1, h2.2.1.trans h1.2.1, h2.2.2.1.trans h1.2.2.1,
           h2.2.2.2.trans h1.2.2.2⟩

theorem runWf_step (sys : SysState) (wfId : String) (wf : WorkflowRun)
    (h0 : sys.crashed = false) (ht : sys.tasks = [])
    (hfind : sys.app.workflows.find? (fun w => w.id == wfId) = some wf)
    (hrun : (wf.status == WorkflowStatus.running) = false) :
    (applyEvent sys (Event.runWf wfId)).app.terminals
      = updTerms sys.app.terminals sys.app.activeTerminalId
          ["[" ++ wf.workflowName ++ "] Starting runner..."] ∧
    (applyEvent sys (Event.runWf wfId)).app.workflows
      = sys.app.workflows.map (fun w =>
          if w.id == wfId then { w with status := WorkflowStatus.running, logs := [] } else w) ∧
    (applyEvent sys (Event.runWf wfId)).tasks
      = [{ targetId := sys.app.activeTerminalId,
           bursts := [Burst.logs ["[" ++ wf.workflowName ++ "] Checking out code..."],
                      Burst.logs ["[" ++ wf.workflowName ++ "] Deployment success!"],
                      Burst.logs ["[" ++ wf.workflowName ++ "] Job finished."],
                      Burst.finish wfId] }] ∧
    (applyEvent sys (Event.runWf wfId)).crashed = false := by
  unfold applyEvent
  rw [if_neg (by rw [h0]; exact Bool.false_ne_true)]
  dsimp only
  unfold runWorkflowSync
  rw [hfind]
  dsimp only
  rw [hrun]
  rw [if_neg Bool.false_ne_true]
  rw [ht]
  exact ⟨rfl, rfl, rfl, h0⟩

theorem fire_logs_step (sys : SysState) (tid l : String) (rest : List Burst)
    (h1 : sys.crashed = false)
    (h2 : sys.tasks = [{ targetId := tid, bursts := Burst.logs [l] :: rest }])
    (h3 : rest.isEmpty = false) :
    (applyEvent sys (Event.fire 0)).app.terminals = updTerms sys.app.terminals tid [l] ∧
    (applyEvent sys (Event.fire 0)).app.workflows = sys.app.workflows ∧
    (applyEvent sys (Event.fire 0)).tasks = [{ targetId := tid, bursts := rest }] ∧
    (applyEvent sys (Event.fire 0)).crashed = false := by
  unfold applyEvent
  rw [if_neg (by rw [h1]; exact Bool.false_ne_true)]
  dsimp only
  unfold fireTask
  rw [h2]
  simp only [List.getElem?_cons_zero]
  rw [h3]
  rw [if_neg Bool.false_ne_true]
  exact ⟨rfl, rfl, rfl, h1⟩

theorem fire_finish_step (sys : SysState) (tid wfId : String)
    (h1 : sys.crashed = false)
    (h2 : sys.tasks = [{ targetId := tid, bursts := [Burst.finish wfId] }]) :
    (applyEvent sys (Event.fire 0)).app.terminals = sys.app.terminals ∧
    (applyEvent sys (Event.fire 0)).app.workflows
      = sys.app.workflows.map (fun w =>
          if w.id == wfId then { w with status := WorkflowStatus.success } else w) ∧
    (applyEvent sys (Event.fire 0)).tasks = [] ∧
    (applyEvent sys (Event.fire 0)).crashed = false := by
  unfold applyEvent
  rw [if_neg (by rw [h1]; exact Bool.false_ne_true)]
  dsimp only
  unfold fireTask
  rw [h2]
  simp only [List.getElem?_cons_zero]
  exact ⟨rfl, rfl, rfl, h1⟩

theorem runInterleaved_spec (app : AppState) (wfId : String) (wf : WorkflowRun)
    (g1 g2 g3 g4 : List Nat)
    (hfind : app.workflows.find? (fun w => w.id == wfId) = some wf)
    (hrun : (wf.status == WorkflowStatus.running) = false) :
    (runInterleaved app wfId g1 g2 g3 g4).app.terminals
      = updTerms app.terminals app.activeTerminalId (wfStepLines wf.workflowName) ∧
    (runInterleaved app wfId g1 g2 g3 g4).app.workflows
      = app.workflows.map (fun w =>
          if w.id == wfId then { w with status := WorkflowStatus.success, logs := [] } else w) := by
  obtain ⟨s1t, s1w, s1k, s1c⟩ :=
    runWf_step { app := app, tasks := [], crashed := false } wfId wf rfl rfl hfind hrun
  have s1tR : (riStage1 app wfId).app.terminals
      = updTerms app.terminals app.activeTerminalId
          ["[" ++ wf.workflowName ++ "] Starting runner..."] := s1t
  have s1kR : (riStage1 app wfId).tasks
      = [{ targetId := app.activeTerminalId,
           bursts := [Burst.logs ["[" ++ wf.workflowName ++ "] Checking out code..."],
                      Burst.logs ["[" ++ wf.workflowName ++ "] Deployment success!"],
                      Burst.logs ["[" ++ wf.workflowName ++ "] Job finished."],
                      Burst.finish wfId] }] := s1k
  have s1wR : (riStage1 app wfId).app.workflows
      = app.workflows.map (fun w =>
          if w.id == wfId then { w with status := WorkflowStatus.running, logs := [] } else w) := s1w
  have s1cR : (riStage1 app wfId).crashed = false := s1c
  obtain ⟨q1t, q1w, q1k, q1c⟩ := switches_pres g1 (riStage1 app wfId)
  obtain ⟨s2t, s2w, s2k, s2c⟩ :=
    fire_logs_step (applyEvents (riStage1 app wfId) (switchEvents g1))
      app.activeTerminalId ("[" ++ wf.workflowName ++ "] Checking out code...")
      [Burst.logs ["[" ++ wf.workflowName ++ "] Deployment success!"],
       Burst.logs ["[" ++ wf.workflowName ++ "] Job finished."],
       Burst.finish wfId]
      (q1c.trans s1cR) (q1k.trans s1kR) rfl
  rw [q1t, s1tR, updTerms_updTerms] at s2t
  rw [q1w, s1wR] at s2w
  have s2tR : (riStage2 app wfId g1).app.terminals
      = updTerms app.terminals app.activeTerminalId
          (["[" ++ wf.workflowName ++ "] Starting runner..."]
            ++ ["[" ++ wf.workflowName ++ "] Checking out code..."]) := s2t
  have s2wR : (riStage2 app wfId g1).app.workflows
      = app.workflows.map (fun w =>
          if w.id == wfId then { w with status := WorkflowStatus.running, logs := [] } else w) := s2w
  have s2kR : (riStage2 app wfId g1).tasks
      = [{ targetId := app.activeTerminalId,
           bursts := [Burst.logs ["[" ++ wf.workflowName ++ "] Deployment success!"],
                      Burst.logs ["[" ++ wf.workflowName ++ "] Job finished."],
                      Burst.finish wfId] }] := s2k
  have s2cR : (riStage2 app wfId g1).crashed = false := s2c
  obtain ⟨q2t, q2w, q2k, q2c⟩ := switches_pres g2 (riStage2 app wfId g1)
  obtain ⟨s3t, s3w, s3k, s3c⟩ :=
    fire_logs_step (applyEvents (riStage2 app wfId g1) (switchEvents g2))
      app.activeTerminalId ("[" ++ wf.workflowName ++ "] Deployment success!")
      [Burst.logs ["[" ++ wf.workflowName ++ "] Job finished."], Burst.finish wfId]
      (q2c.trans s2cR) (q2k.trans s2kR) rfl
  rw [q2t, s2tR, updTerms_updTerms] at s3t
  rw [q2w, s2wR] at s3w
  have s3tR : (riStage3 app wfId g1 g2).app.terminals
      = updTerms app.terminals app.activeTerminalId
          (["[" ++ wf.workflowName ++ "] Starting runner..."]
            ++ ["[" ++ wf.workflowName ++ "] Checking out code..."]
            ++ ["[" ++ wf.workflowName ++ "] Deployment success!"]) := s3t
  have s3wR : (riStage3 app wfId g1 g2).app.workflows
      = app.workflows.map (fun w =>
          if w.id == wfId then { w with status := WorkflowStatus.running, logs := [] } else w) := s3w
  have s3kR : (riStage3 app wfId g1 g2).tasks
      = [{ targetId := app.activeTerminalId,
           bursts := [Burst.logs ["[" ++ wf.workflowName ++ "] Job finished."],
                      Burst.finish wfId] }] := s3k
  have s3cR : (riStage3 app wfId g1 g2).crashed = false := s3c
  obtain ⟨q3t, q3w, q3k, q3c⟩ := switches_pres g3 (riStage3 app wfId g1 g2)
  obtain ⟨s4t, s4w, s4k, s4c⟩ :=
    fire_logs_step (applyEvents (riStage3 app wfId g1 g2) (switchEvents g3))
      app.activeTerminalId ("[" ++ wf.workflowName ++ "] Job finished.")
      [Burst.finish wfId]
      (q3c.trans s3cR) (q3k.trans s3kR) rfl
  rw [q3t, s3tR, updTerms_updTerms] at s4t
  rw [q3w, s3wR] at s4w
  have s4tR : (riStage4 app wfId g1 g2 g3).app.terminals
      = updTerms app.terminals app.activeTerminalId
          (["[" ++ wf.workflowName ++ "] Starting runner..."]
            ++ ["[" ++ wf.workflowName ++ "] Checking out code..."]
            ++ ["[" ++ wf.workflowName ++ "] Deployment success!"]
            ++ ["[" ++ wf.workflowName ++ "] Job finished."]) := s4t
  have s4wR : (riStage4 app wfId g1 g2 g3).app.workflows
      = app.workflows.map (fun w =>
          if w.id == wfId then { w with status := WorkflowStatus.running, logs := [] } else w) := s4w
  have s4kR : (riStage4 app wfId g1 g2 g3).tasks
      = [{ targetId := app.activeTerminalId, bursts := [Burst.finish wfId] }] := s4k
  have s4cR : (riStage4 app wfId g1 g2 g3).crashed = false := s4c
  obtain ⟨q4t, q4w, q4k, q4c⟩ := switches_pres g4 (riStage4 app wfId g1 g2 g3)
  obtain ⟨s5t, s5w, s5k, s5c⟩ :=
    fire_finish_step (applyEvents (riStage4 app wfId g1 g2 g3) (switchEvents g4))
      app.activeTerminalId wfId
      (q4c.trans s4cR) (q4k.trans s4kR)
  rw [q4t, s4tR] at s5t
  rw [q4w, s4wR, wf_map_fusion] at s5w
  exact ⟨s5t, s5w⟩

theorem beq_false_of_theme_sw (cc d : String) (h : startsWithS cc "theme " = true)
    (hd : startsWithS d "theme " = false) : (cc == d) = false := by
  cases hb : (cc == d) with
  | true =>
    have he : cc = d := eq_of_beq hb
    subst he
    rw [h] at hd
    exact absurd hd (by simp)
  | false => rfl

theorem handleCommandAux_theme (s : AppState) (cmd cc a : String)
    (h : startsWithS cc "theme " = true) :
    (validThemes.contains (tokenAt cc 1) = true →
      handleCommandAux s cmd cc a
        = ({ addLog { (addLog s s.activeTerminalId ("soluf-th@dev:~$ " ++ cmd)) with
              terminalTheme := tokenAt cc 1 } s.activeTerminalId
              ("Terminal theme switched to " ++ tokenAt cc 1) with
            commandInput := "", suggestion := "" }, [])) ∧
    (validThemes.contains (tokenAt cc 1) = false →
      handleCommandAux s cmd cc a
        = ({ addLog (addLog s s.activeTerminalId ("soluf-th@dev:~$ " ++ cmd))
              s.activeTerminalId ("Unknown theme: " ++ tokenAt cc 1) with
            commandInput := "", suggestion := "" }, [])) := by
  have h1 := beq_false_of_theme_sw cc "clear" h (by decide)
  have h2 := beq_false_of_theme_sw cc "ls" h (by decide)
  have h3 := beq_false_of_theme_sw cc "help" h (by decide)
  have h4 := beq_false_of_theme_sw cc "whoami" h (by decide)
  have h5 := beq_false_of_theme_sw cc "audit" h (by decide)
  have h6 := beq_false_of_theme_sw cc "npm test" h (by decide)
  unfold handleCommandAux
  dsimp only
  rw [h1, if_neg Bool.false_ne_true]
  rw [h2, if_neg Bool.false_ne_true]
  rw [h3, if_neg Bool.false_ne_true]
  rw [h4, if_neg Bool.false_ne_true]
  rw [h5, if_neg Bool.false_ne_true]
  rw [h6, if_neg Bool.false_ne_true]
  rw [if_pos h]
  constructor
  · intro hv
    rw [if_pos hv]
  · intro hv
    rw [hv, if_neg Bool.false_ne_true]

theorem dispatch_npm_test_complete (s : AppState) (a : String) :
    dispatchAndComplete s "npm test" a
      = { s with
          terminals := updTerms s.terminals s.activeTerminalId npmTestLines,
          commandInput := "", suggestion := "" } := by
  have h1 : dispatchAndComplete s "npm test" a
      = { s with
          terminals := (updTerms (updTerms (updTerms s.terminals s.activeTerminalId ["soluf-th@dev:~$ npm test"]) s.activeTerminalId ["Running tests..."]) s.activeTerminalId ["✓ Storage.sol compiled", "✓ Storage.sol tests passed", "Tests completed successfully."]),
          commandInput := "", suggestion := "" } := rfl
  rw [h1, updTerms_updTerms, updTerms_updTerms]
  rfl

theorem dispatch_blank (s : AppState) (cmd a : String) (h : trimS cmd = "") :
    handleCommand s cmd a
      = ({ s with
           terminals := (updTerms s.terminals s.activeTerminalId ["soluf-th@dev:~$ " ++ cmd]),
           commandInput := "", suggestion := "" }, []) := by
  have hc : cleanOf cmd = "" := by rw [cleanOf, h]; rfl
  rw [handleCommand, hc]
  rfl

theorem runWorkflowSync_noop (s : AppState) (wfId : String)
    (h : s.workflows.find? (fun w => w.id == wfId) = none ∨
         ∃ wf, s.workflows.find? (fun w => w.id == wfId) = some wf ∧
           wf.status = WorkflowStatus.running) :
    runWorkflowSync s wfId = (s, []) := by
  unfold runWorkflowSync
  cases h with
  | inl h => rw [h]
  | inr h =>
    obtain ⟨wf, hf, hs⟩ := h
    rw [hf]
    dsimp only
    rw [hs]
    rw [if_pos (by decide)]

theorem closeTerminal_spec (s : AppState) (id : String) (s2 : AppState)
    (hn : (s.terminals.map (fun t => t.id)).Nodup)
    (hg : goodApp s)
    (hc : closeTerminal s id = some s2) :
    (1 < s.terminals.length → s.activeTerminalId = id →
      ∃ t0, (s.terminals.filter (fun t => t.id != id)).head? = some t0 ∧
        s2.activeTerminalId = t0.id) ∧
    goodApp s2 ∧
    s2.terminals.countP (fun t => t.id == s2.activeTerminalId) = 1 := by
  unfold closeTerminal at hc
  by_cases hl : s.terminals.length ≤ 1
  · rw [if_pos hl] at hc
    injection hc with hc
    subst hc
    exact ⟨fun h1 _ => absurd h1 (by omega), hg, countP_id_eq_one _ _ hn hg⟩
  · rw [if_neg hl] at hc
    dsimp only at hc
    have hsub : ((s.terminals.filter (fun t => t.id != id)).map (fun t => t.id)).Nodup :=
      List.Nodup.sublist ((List.filter_sublist _).map _) hn
    by_cases ha : (s.activeTerminalId == id) = true
    · rw [if_pos ha] at hc
      cases hh : (s.terminals.filter (fun t => t.id != id)).head? with
      | none => rw [hh] at hc; exact absurd hc (by simp)
      | some t0 =>
        rw [hh] at hc
        injection hc with hc
        subst hc
        have hmem : t0.id ∈ (s.terminals.filter (fun t => t.id != id)).map (fun t => t.id) :=
          List.mem_map.mpr ⟨t0, List.mem_of_mem_head? hh, rfl⟩
        exact ⟨fun _ _ => ⟨t0, rfl, rfl⟩, hmem, countP_id_eq_one _ _ hsub hmem⟩
    · rw [if_neg ha] at hc
      injection hc with hc
      subst hc
      have hane : s.activeTerminalId ≠ id := by
        intro he
        rw [he] at ha
        exact ha (by simp)
      have hmem : s.activeTerminalId ∈
          (s.terminals.filter (fun t => t.id != id)).map (fun t => t.id) := by
        obtain ⟨t, ht, hid⟩ := List.mem_map.mp hg
        refine List.mem_map.mpr ⟨t, List.mem_filter.mpr ⟨ht, ?_⟩, hid⟩
        have hne : ¬ t.id = id := by rw [hid]; exact hane
        simp [hne]
      exact ⟨fun _ hactive => absurd hactive hane, hmem, countP_id_eq_one _ _ hsub hmem⟩

theorem suggestion_first_match_core :
    (∀ val, trimS val = "" → findSuggestion val = none) ∧
    (∀ val c, findSuggestion val = some c →
      ∃ i, ∃ h : i < COMMANDS.length, COMMANDS.get ⟨i, h⟩ = c ∧
        startsWithS c (lowerS val) = true ∧
        ∀ j, ∀ hj : j < COMMANDS.length, j < i →
          startsWithS (COMMANDS.get ⟨j, hj⟩) (lowerS val) = false) := by
  constructor
  · intro val h
    unfold findSuggestion
    rw [h]
    rfl
  · intro val c h
    unfold findSuggestion at h
    by_cases ht : (trimS val == "") = true
    · rw [if_pos ht] at h
      exact absurd h (by simp)
    · rw [if_neg ht] at h
      exact find?_first _ COMMANDS c h

/-- C1 (corrected): in runWorkflow the addLog closure resolves the active
terminal id once, at trigger time; every one of the four step lines is
appended to that trigger-time terminal, for every interleaving of tab
switches during the delays, and never to a terminal activated later. -/
theorem c1_workflow_steps_target_trigger_snapshot (app : AppState) (wfId : String)
    (wf : WorkflowRun) (g1 g2 g3 g4 : List Nat)
    (hfind : app.workflows.find? (fun w => w.id == wfId) = some wf)
    (hrun : (wf.status == WorkflowStatus.running) = false) :
    (runInterleaved app wfId g1 g2 g3 g4).app.terminals
      = updTerms app.terminals app.activeTerminalId (wfStepLines wf.workflowName) ∧
    (runInterleaved app wfId g1 g2 g3 g4).app.workflows
      = app.workflows.map (fun w =>
          if w.id == wfId then { w with status := WorkflowStatus.success, logs := [] } else w) := by
  exact runInterleaved_spec app wfId wf g1 g2 g3 g4 hfind hrun

theorem c1_workflow_steps_target_trigger_snapshot_witness :
    initApp.workflows.find? (fun w => w.id == "wf2")
      = some { id := "wf2", workflowName := "CD Deployment",
               status := WorkflowStatus.idle, logs := [] } ∧
    (runInterleaved initApp "wf2" [1] [] [] [1]).app.terminals
      = updTerms initApp.terminals "term-1" (wfStepLines "CD Deployment") := by
  refine ⟨by decide, ?_⟩
  exact (c1_workflow_steps_target_trigger_snapshot initApp "wf2"
    { id := "wf2", workflowName := "CD Deployment", status := WorkflowStatus.idle, logs := [] }
    [1] [] [] [1] (by decide) (by decide)).1

/-- C1 counterexample: trigger wf2 while term-1 is active, then make term-2
active before steps 2 to 4 fire; the claim as stated predicts the later step
lines in the newly active term-2 log, but they land in term-1. -/
theorem c1_fire_time_active_terminal_cex :
    c1Trace.app.activeTerminalId = "term-2" ∧
    termLogsIn c1Trace "term-2"
      = ["Welcome to Node.js v18.16.0.", "Type \".help\" for more information."] ∧
    ¬ ("[CD Deployment] Checking out code..." ∈ termLogsIn c1Trace "term-2") ∧
    termLogsIn c1Trace "term-1"
      = ["Welcome to Soluf-th Bash v5.1", "Type \"help\" for available commands."]
          ++ wfStepLines "CD Deployment" ∧
    c1Trace.crashed = false := by
  refine ⟨by decide, by decide, by decide, by decide, by decide⟩

/-- C2 (confirmed): every reachable state keeps at least one terminal session,
and closing the last remaining session is a silent no-op. -/
theorem c2_terminal_count_never_below_one :
    (∀ sys, Reachable sys → 1 ≤ sys.app.terminals.length) ∧
    (∀ s id, s.terminals.length ≤ 1 → closeTerminal s id = some s) := by
  constructor
  · intro sys h
    have hg := (reachable_inv sys h).1
    unfold goodApp at hg
    cases hterm : sys.app.terminals with
    | nil =>
      rw [hterm] at hg
      exact absurd hg (by simp)
    | cons t ts => simp
  · intro s id h
    unfold closeTerminal
    rw [if_pos h]

theorem c2_terminal_count_never_below_one_witness :
    1 ≤ initSys.app.terminals.length ∧ closeTerminal soloApp "term-1" = some soloApp :=
  ⟨c2_terminal_count_never_below_one.1 initSys Reachable.init,
   c2_terminal_count_never_below_one.2 soloApp "term-1" (by decide)⟩

/-- C3 (corrected): closing the active session (not last) activates the first
remaining session, and after a close from a state with pairwise distinct
session ids exactly one session is marked active and it exists in the
remaining collection. -/
theorem c3_close_active_invariants (s : AppState) (id : String) (s2 : AppState)
    (hn : (s.terminals.map (fun t => t.id)).Nodup)
    (hg : goodApp s)
    (hc : closeTerminal s id = some s2) :
    (1 < s.terminals.length → s.activeTerminalId = id →
      ∃ t0, (s.terminals.filter (fun t => t.id != id)).head? = some t0 ∧
        s2.activeTerminalId = t0.id) ∧
    goodApp s2 ∧
    s2.terminals.countP (fun t => t.id == s2.activeTerminalId) = 1 := by
  exact closeTerminal_spec s id s2 hn hg hc

set_option maxRecDepth 4096 in
theorem c3_close_active_invariants_witness :
    (initApp.terminals.map (fun t => t.id)).Nodup ∧
    closeTerminal initApp "term-1" = some { initApp with terminals := [{ id := "term-2", name := "node", logs := ["Welcome to Node.js v18.16.0.", "Type \".help\" for more information."] }], activeTerminalId := "term-2" } ∧
    ({ initApp with terminals := [{ id := "term-2", name := "node", logs := ["Welcome to Node.js v18.16.0.", "Type \".help\" for more information."] }], activeTerminalId := "term-2" } : AppState).terminals.countP
        (fun t => t.id == ({ initApp with terminals := [{ id := "term-2", name := "node", logs := ["Welcome to Node.js v18.16.0.", "Type \".help\" for more information."] }], activeTerminalId := "term-2" } : AppState).activeTerminalId) = 1 := by
  refine ⟨by decide, by decide, ?_⟩
  exact (c3_close_active_invariants initApp "term-1" _
    (by decide) (by unfold goodApp; decide) (by decide)).2.2

/-- C3 counterexample: two terminals created in the same millisecond share the
Date.now derived id; after closing term-1 the remaining collection holds two
sessions both marked active, refuting the exactly-one clause. -/
theorem c3_two_sessions_marked_active_cex :
    c3Trace.crashed = false ∧
    c3Trace.app.terminals.map (fun t => t.id) = ["term-5", "term-5"] ∧
    c3Trace.app.activeTerminalId = "term-5" ∧
    c3Trace.app.terminals.countP (fun t => t.id == c3Trace.app.activeTerminalId) = 2 ∧
    ¬ (c3Trace.app.terminals.countP (fun t => t.id == c3Trace.app.activeTerminalId) = 1) := by
  refine ⟨by decide, by decide, by decide, by decide, by decide⟩

/-- C4 (corrected): dispatching an empty or whitespace-only line appends
exactly one log line, the prompt echo of the raw input, to the active
terminal, resets the input buffer and suggestion, schedules nothing, and
changes nothing else. -/
theorem c4_blank_dispatch_appends_echo_only (s : AppState) (cmd a : String)
    (h : trimS cmd = "") :
    handleCommand s cmd a
      = ({ s with
           terminals := (updTerms s.terminals s.activeTerminalId ["soluf-th@dev:~$ " ++ cmd]),
           commandInput := "", suggestion := "" }, []) := by
  exact dispatch_blank s cmd a h

theorem c4_blank_dispatch_appends_echo_only_witness :
    trimS "   " = "" ∧
    handleCommand initApp "   " ""
      = ({ initApp with
           terminals := (updTerms initApp.terminals initApp.activeTerminalId ["soluf-th@dev:~$    "]),
           commandInput := "", suggestion := "" }, []) :=
  ⟨by decide, c4_blank_dispatch_appends_echo_only initApp "   " "" (by decide)⟩

/-- C4 counterexample: dispatching the empty line on the seeded state appends
the prompt echo line to term-1, so the log does change. -/
theorem c4_empty_dispatch_logs_echo_cex :
    logsOf (handleCommand initApp "" "").1 "term-1"
      = ["Welcome to Soluf-th Bash v5.1", "Type \"help\" for available commands.",
         "soluf-th@dev:~$ "] ∧
    ¬ (logsOf (handleCommand initApp "" "").1 "term-1" = logsOf initApp "term-1") := by
  refine ⟨by decide, by decide⟩

/-- C5 (confirmed): the theme command parses its argument as the first
space-delimited token after the case-folded trim; a valid token updates the
stored theme and logs the confirmation, any other token leaves the theme
unchanged and logs the unknown-theme line echoing that token. -/
theorem c5_theme_command_spec :
    (∀ s cmd a, handleCommand s cmd a = handleCommandAux s cmd (cleanOf cmd) a) ∧
    (∀ s cmd cc a, startsWithS cc "theme " = true →
      ((validThemes.contains (tokenAt cc 1) = true →
          (handleCommandAux s cmd cc a).1.terminalTheme = tokenAt cc 1 ∧
          (handleCommandAux s cmd cc a).1.terminals
            = updTerms s.terminals s.activeTerminalId
                ["soluf-th@dev:~$ " ++ cmd, "Terminal theme switched to " ++ tokenAt cc 1] ∧
          (handleCommandAux s cmd cc a).2 = []) ∧
       (validThemes.contains (tokenAt cc 1) = false →
          (handleCommandAux s cmd cc a).1.terminalTheme = s.terminalTheme ∧
          (handleCommandAux s cmd cc a).1.terminals
            = updTerms s.terminals s.activeTerminalId
                ["soluf-th@dev:~$ " ++ cmd, "Unknown theme: " ++ tokenAt cc 1] ∧
          (handleCommandAux s cmd cc a).2 = []))) ∧
    (handleCommand initApp "theme cyberpunk" "").1.terminalTheme = "cyberpunk" ∧
    (handleCommand initApp "theme foo" "").1.terminalTheme = "github-dark" ∧
    logsOf (handleCommand initApp "theme foo" "").1 "term-1"
      = ["Welcome to Soluf-th Bash v5.1", "Type \"help\" for available commands.",
         "soluf-th@dev:~$ theme foo", "Unknown theme: foo"] := by
  refine ⟨fun s cmd a => rfl, ?_, by decide, by decide, by decide⟩
  intro s cmd cc a h
  obtain ⟨hvalid, hinvalid⟩ := handleCommandAux_theme s cmd cc a h
  constructor
  · intro hv
    rw [hvalid hv]
    refine ⟨rfl, ?_, rfl⟩
    show updTerms (updTerms s.terminals s.activeTerminalId ["soluf-th@dev:~$ " ++ cmd])
        s.activeTerminalId ["Terminal theme switched to " ++ tokenAt cc 1] = _
    rw [updTerms_updTerms]
    rfl
  · intro hv
    rw [hinvalid hv]
    refine ⟨rfl, ?_, rfl⟩
    show updTerms (updTerms s.terminals s.activeTerminalId ["soluf-th@dev:~$ " ++ cmd])
        s.activeTerminalId ["Unknown theme: " ++ tokenAt cc 1] = _
    rw [updTerms_updTerms]
    rfl

theorem c5_theme_command_spec_witness :
    startsWithS "theme foo" "theme " = true ∧
    validThemes.contains (tokenAt "theme foo" 1) = false ∧
    (handleCommandAux initApp "theme foo" "theme foo" "").1.terminalTheme
      = initApp.terminalTheme := by
  refine ⟨by decide, by decide, ?_⟩
  exact ((c5_theme_command_spec.2.1 initApp "theme foo" "theme foo" "" (by decide)).2
    (by decide)).1

/-- C6 (corrected): a completed npm test dispatch appends exactly five lines
in fixed order to the active terminal, whatever its prior log content: the
prompt echo, the running line, then the three fixed completion lines. -/
theorem c6_npm_test_appends_five_lines (s : AppState) (a : String) :
    dispatchAndComplete s "npm test" a
      = { s with
          terminals := updTerms s.terminals s.activeTerminalId npmTestLines,
          commandInput := "", suggestion := "" } := by
  exact dispatch_npm_test_complete s a

/-- C6 counterexample: on the seeded state the completed dispatch leaves
term-1 with seven lines, its two seed lines plus five appended, not plus
four as claimed. -/
theorem c6_npm_test_four_lines_cex :
    logsOf c6Final "term-1"
      = ["Welcome to Soluf-th Bash v5.1", "Type \"help\" for available commands.",
         "soluf-th@dev:~$ npm test", "Running tests...", "✓ Storage.sol compiled",
         "✓ Storage.sol tests passed", "Tests completed successfully."] ∧
    (logsOf c6Final "term-1").length = (logsOf initApp "term-1").length + 5 ∧
    ¬ ((logsOf c6Final "term-1").length = (logsOf initApp "term-1").length + 4) := by
  refine ⟨by decide, by decide, by decide⟩

/-- C7 (confirmed): triggering an unknown workflow id or a workflow already
running is a complete no-op, both for the pure trigger function and for the
system event. -/
theorem c7_trigger_running_or_unknown_noop (s : AppState) (wfId : String)
    (h : s.workflows.find? (fun w => w.id == wfId) = none ∨
         ∃ wf, s.workflows.find? (fun w => w.id == wfId) = some wf ∧
           wf.status = WorkflowStatus.running) :
    runWorkflowSync s wfId = (s, []) ∧
    ∀ sys : SysState, sys.app = s → applyEvent sys (Event.runWf wfId) = sys := by
  have hmain : runWorkflowSync s wfId = (s, []) := runWorkflowSync_noop s wfId h
  refine ⟨hmain, ?_⟩
  intro sys hs
  unfold applyEvent
  by_cases hcr : sys.crashed = true
  · rw [if_pos hcr]
  · rw [if_neg hcr]
    dsimp only
    rw [hs, hmain]
    dsimp only
    rw [List.append_nil, ← hs]

theorem c7_trigger_running_or_unknown_noop_witness :
    initApp.workflows.find? (fun w => w.id == "wf9") = none ∧
    runWorkflowSync initApp "wf9" = (initApp, []) := by
  refine ⟨by decide, ?_⟩
  exact (c7_trigger_running_or_unknown_noop initApp "wf9" (Or.inl (by decide))).1

/-- C8 (confirmed): triggering wf2 from idle yields the status sequence
running then success with the four step lines appended in between, and no
reachable state ever holds a failed workflow status. -/
theorem c8_wf2_run_and_no_failed :
    wfStatusIn initSys "wf2" = some WorkflowStatus.idle ∧
    wfStatusIn c8Trigger "wf2" = some WorkflowStatus.running ∧
    wfStatusIn (applyEvents c8Trigger [Event.fire 0]) "wf2" = some WorkflowStatus.running ∧
    wfStatusIn (applyEvents c8Trigger [Event.fire 0, Event.fire 0]) "wf2"
      = some WorkflowStatus.running ∧
    wfStatusIn (applyEvents c8Trigger [Event.fire 0, Event.fire 0, Event.fire 0]) "wf2"
      = some WorkflowStatus.running ∧
    wfStatusIn c8Final "wf2" = some WorkflowStatus.success ∧
    termLogsIn c8Final "term-1" = termLogsIn initSys "term-1" ++ wfStepLines "CD Deployment" ∧
    (∀ sys, Reachable sys → ∀ w ∈ sys.app.workflows, w.status ≠ WorkflowStatus.failed) := by
  refine ⟨by decide, by decide, by decide, by decide, by decide, by decide, by decide, ?_⟩
  intro sys h
  exact (reachable_inv sys h).2

theorem c8_wf2_run_and_no_failed_witness :
    ¬ (({ id := "wf1", workflowName := "CI Pipeline", status := WorkflowStatus.success, logs := ["Build started", "npm install successful", "Tests passed", "Build finished"] } : WorkflowRun).status = WorkflowStatus.failed) := by
  exact c8_wf2_run_and_no_failed.2.2.2.2.2.2.2 initSys Reachable.init
    { id := "wf1", workflowName := "CI Pipeline", status := WorkflowStatus.success, logs := ["Build started", "npm install successful", "Tests passed", "Build finished"] }
    (by decide)

/-- C9 (confirmed): the suggestion is none for blank input and otherwise the
first vocabulary entry, in declared order, whose text starts with the
lower-cased input; input n yields npm test, never npm deploy. -/
theorem c9_suggestion_first_match :
    (∀ val, trimS val = "" → findSuggestion val = none) ∧
    (∀ val c, findSuggestion val = some c →
      ∃ i, ∃ h : i < COMMANDS.length, COMMANDS.get ⟨i, h⟩ = c ∧
        startsWithS c (lowerS val) = true ∧
        ∀ j, ∀ hj : j < COMMANDS.length, j < i →
          startsWithS (COMMANDS.get ⟨j, hj⟩) (lowerS val) = false) ∧
    findSuggestion "n" = some "npm test" ∧
    ¬ (findSuggestion "n" = some "npm deploy") ∧
    (∀ s val, onCommandChange s val
      = { s with commandInput := val, suggestion := (findSuggestion val).getD "" }) := by
  refine ⟨suggestion_first_match_core.1, suggestion_first_match_core.2,
    by decide, by decide, fun s val => rfl⟩

theorem c9_suggestion_first_match_witness :
    trimS " " = "" ∧ findSuggestion " " = none ∧ findSuggestion "n" = some "npm test" := by
  refine ⟨by decide, c9_suggestion_first_match.1 " " (by decide), c9_suggestion_first_match.2.2.1⟩

theorem splitSp_cons (c : Char) (cs : List Char) :
    splitSp (c :: cs)
      = if (c == ' ') = true then [] :: splitSp cs
        else
          match splitSp cs with
          | [] => [c] :: []
          | g :: gs => (c :: g) :: gs := rfl

theorem splitSp_no_space_append (name : List Char) :
    (∀ c ∈ name, (c == ' ') = false) →
    ∀ rest, splitSp (name ++ ' ' :: rest) = name :: splitSp rest := by
  induction name with
  | nil =>
    intro _ rest
    show splitSp (' ' :: rest) = [] :: splitSp rest
    rw [splitSp_cons, if_pos (by decide)]
  | cons c cs ih =>
    intro h rest
    have hc : (c == ' ') = false := h c (List.mem_cons_self c cs)
    have ih2 := ih (fun x hx => h x (List.mem_cons_of_mem c hx)) rest
    show splitSp (c :: (cs ++ ' ' :: rest)) = (c :: cs) :: splitSp rest
    rw [splitSp_cons, hc, if_neg Bool.false_ne_true, ih2]

theorem isPre_append (p rest : List Char) : isPre p (p ++ rest) = true := by
  induction p with
  | nil => rfl
  | cons a as ih =>
    show (a == a && isPre as (as ++ rest)) = true
    rw [ih]
    simp

theorem startsWithS_theme_form (name extra : String) :
    startsWithS ("theme " ++ name ++ " " ++ extra) "theme " = true := by
  show isPre "theme ".data ((("theme ".data ++ name.data) ++ " ".data) ++ extra.data) = true
  rw [List.append_assoc, List.append_assoc]
  exact isPre_append "theme ".data (name.data ++ (" ".data ++ extra.data))

theorem tokenAt_theme_form (name extra : String)
    (h : ∀ c ∈ name.data, (c == ' ') = false) :
    tokenAt ("theme " ++ name ++ " " ++ extra) 1 = name := by
  have hdata : ("theme " ++ name ++ " " ++ extra).data
      = ['t','h','e','m','e'] ++ ' ' :: (name.data ++ ' ' :: extra.data) := by
    show (("theme ".data ++ name.data) ++ " ".data) ++ extra.data = _
    rw [List.append_assoc, List.append_assoc]
    rfl
  unfold tokenAt
  rw [hdata]
  rw [splitSp_no_space_append ['t','h','e','m','e'] (by decide) (name.data ++ ' ' :: extra.data)]
  rw [splitSp_no_space_append name.data h extra.data]
  rfl

theorem validThemes_no_space (name : String) (h : validThemes.contains name = true) :
    ∀ c ∈ name.data, (c == ' ') = false := by
  have h3 : name = "monokai" ∨ name = "cyberpunk" ∨ name = "github-dark" := by
    have hm : name ∈ validThemes := by simpa using h
    simpa [validThemes] using hm
  rcases h3 with h3 | h3 | h3 <;> (subst h3; decide)

/-- C10 (confirmed): the theme dispatch considers only the first
space-delimited token after theme: for every state and every input whose
trimmed, case-folded form is theme followed by a valid name and any extra
token text, the theme is updated to that name, the confirmation line names
only that name, and the extra tokens are silently ignored; concrete
raw-input scenarios included. -/
theorem c10_theme_extra_tokens_ignored :
    (∀ s cmd a name extra, validThemes.contains name = true →
      cleanOf cmd = "theme " ++ name ++ " " ++ extra →
      (handleCommand s cmd a).1.terminalTheme = name ∧
      (handleCommand s cmd a).1.terminals
        = updTerms s.terminals s.activeTerminalId
            ["soluf-th@dev:~$ " ++ cmd, "Terminal theme switched to " ++ name] ∧
      (handleCommand s cmd a).2 = []) ∧
    (∀ s a, (handleCommand s "theme monokai junk" a).1.terminalTheme = "monokai" ∧
      (handleCommand s "theme cyberpunk junk" a).1.terminalTheme = "cyberpunk" ∧
      (handleCommand s "theme github-dark extra tokens" a).1.terminalTheme = "github-dark") := by
  constructor
  · intro s cmd a name extra hname hclean
    have hnosp := validThemes_no_space name hname
    have hsw : startsWithS (cleanOf cmd) "theme " = true := by
      rw [hclean]
      exact startsWithS_theme_form name extra
    have htok : tokenAt (cleanOf cmd) 1 = name := by
      rw [hclean]
      exact tokenAt_theme_form name extra hnosp
    have hv : validThemes.contains (tokenAt (cleanOf cmd) 1) = true := by
      rw [htok]
      exact hname
    obtain ⟨hvalid, _⟩ := handleCommandAux_theme s cmd (cleanOf cmd) a hsw
    have heq := hvalid hv
    have hbridge : handleCommand s cmd a = handleCommandAux s cmd (cleanOf cmd) a := rfl
    rw [hbridge, heq]
    refine ⟨htok, ?_, rfl⟩
    show updTerms (updTerms s.terminals s.activeTerminalId ["soluf-th@dev:~$ " ++ cmd])
        s.activeTerminalId ["Terminal theme switched to " ++ tokenAt (cleanOf cmd) 1] = _
    rw [htok, updTerms_updTerms]
    rfl
  · intro s a
    exact ⟨rfl, rfl, rfl⟩

theorem c10_theme_extra_tokens_ignored_witness :
    validThemes.contains "monokai" = true ∧
    cleanOf "theme monokai junk" = "theme " ++ "monokai" ++ " " ++ "junk" ∧
    (handleCommand initApp "theme monokai junk" "").1.terminalTheme = "monokai" ∧
    (handleCommand initApp "theme monokai junk" "").1.terminals
      = updTerms initApp.terminals "term-1"
          ["soluf-th@dev:~$ theme monokai junk", "Terminal theme switched to monokai"] := by
  refine ⟨by decide, by decide, ?_, ?_⟩
  · exact (c10_theme_extra_tokens_ignored.1 initApp "theme monokai junk" "" "monokai" "junk"
      (by decide) (by decide)).1
  · exact (c10_theme_extra_tokens_ignored.1 initApp "theme monokai junk" "" "monokai" "junk"
      (by decide) (by decide)).2.1
